import Mathlib

/-!
Shallow embedding of `google/cloud/dataflow/transforms/core.py` (the combiner
algebra, per-key combine application, GroupByKey reify/group-also-by-window,
Partition, Windowing and Create), together with proofs of the specification
claims about them.

Dynamically-typed parts of the code (the callable-wrapper combiner, the
GroupByKey reify step and Create's input handling) are embedded over a small
universe `Py` of Python values.
-/

/-- A small universe of Python values: integers, strings, lists (also standing
in for tuples), dicts, `None`, and the distinguished `_EMPTY = object()`
sentinel used by `CallableWrapperCombineFn`. -/
inductive Py : Type where
  | none_v : Py
  | int : Int → Py
  | str : String → Py
  | list : List Py → Py
  | dict : List (Py × Py) → Py
  | EMPTY : Py

/-- Identity test against the `_EMPTY` sentinel (`accumulator is self._EMPTY`). -/
def Py.isEMPTY : Py → Bool
  | .EMPTY => true
  | _ => false

/-- Test whether a value is a Python string (`isinstance(value, basestring)`). -/
def Py.isStr : Py → Bool
  | .str _ => true
  | _ => false

/-- The Python exceptions raised by the embedded code. -/
inductive Err : Type where
  | typeError (msg : String)
  | valueError (msg : String)
  | typeCheckError (msg : String)
deriving DecidableEq

/-- Python iteration over a value: lists iterate their items, strings iterate
their one-character substrings, dicts iterate their keys; other values are not
iterable. -/
def pyIter : Py → Option (List Py)
  | .list l => some l
  | .str s => some (s.toList.map fun c => Py.str c.toString)
  | .dict kvs => some (kvs.map Prod.fst)
  | _ => none

/-- Python two-target tuple unpacking `k, v = value`: a non-iterable raises
`TypeError`; an iterable of length other than two raises `ValueError`. -/
def unpack2 (v : Py) : Except Err (Py × Py) :=
  match pyIter v with
  | none => .error (.typeError "argument is not iterable")
  | some [a, b] => .ok (a, b)
  | some l =>
    if l.length < 2 then .error (.valueError "need more than values to unpack")
    else .error (.valueError "too many values to unpack")

/-- Boolean test that a value unpacks as a two-component key/value pair. -/
def isPair2 (v : Py) : Bool :=
  match pyIter v with
  | some l => l.length == 2
  | none => false

/-! ## CallableWrapperCombineFn (core.py lines 349-399)

`fn : List Py → Py` is the wrapped reducer callable. -/

/-- Embeds `CallableWrapperCombineFn.create_accumulator`: returns the
`_EMPTY` sentinel. -/
def CallableWrapperCombineFn.create_accumulator : Py := Py.EMPTY

/-- Embeds `CallableWrapperCombineFn.add_inputs`: if the accumulator is not
`_EMPTY`, reduce it together with the new elements, else reduce the elements. -/
def CallableWrapperCombineFn.add_inputs (fn : List Py → Py)
    (accumulator : Py) (elements : List Py) : Py :=
  if accumulator.isEMPTY then fn elements else fn (accumulator :: elements)

/-- Embeds `CallableWrapperCombineFn.merge_accumulators`: applies the wrapped
callable to the accumulators directly. -/
def CallableWrapperCombineFn.merge_accumulators (fn : List Py → Py)
    (accumulators : List Py) : Py :=
  fn accumulators

/-- Embeds `CallableWrapperCombineFn.extract_output`: `fn(())` on the `_EMPTY`
sentinel, else the accumulator unchanged. -/
def CallableWrapperCombineFn.extract_output (fn : List Py → Py)
    (accumulator : Py) : Py :=
  if accumulator.isEMPTY then fn [] else accumulator

/-- A positional-argument call of `CallableWrapperCombineFn.add_inputs`, whose
Python signature is `(self, accumulator, elements, *args)`: a call supplying
fewer than two positional arguments raises `TypeError` before the body runs. -/
def CallableWrapperCombineFn.add_inputs_posargs (fn : List Py → Py)
    (posargs : List Py) : Except Err Py :=
  match posargs with
  | [accumulator, elements] =>
    match pyIter elements with
    | some es => .ok (CallableWrapperCombineFn.add_inputs fn accumulator es)
    | none => .error (.typeError "elements is not iterable")
  | _ => .error (.typeError "add_inputs() missing required positional argument: elements")

/-- Embeds `CallableWrapperCombineFn.add_input`, whose body is
`return self.add_inputs([element])`: the list `[element]` is passed as the
single positional argument (binding to `accumulator`) and no `elements`
argument is supplied. -/
def CallableWrapperCombineFn.add_input (fn : List Py → Py)
    (_accumulator element : Py) : Except Err Py :=
  CallableWrapperCombineFn.add_inputs_posargs fn [Py.list [element]]

/-- A reducer callable used as a concrete instance: integer sum over a list of
Python values (non-integers count as 0), like Python's builtin `sum`. -/
def sumPy (l : List Py) : Py :=
  Py.int (l.foldl (fun acc v => acc + (match v with | Py.int n => n | _ => 0)) 0)

/-! ## CombineFn (core.py lines 239-346)

The four-operation combiner protocol, as a structure whose fields are the
operations a concrete `CombineFn` implements. -/

/-- The `CombineFn` operation protocol: `create_accumulator`, `add_inputs`,
`merge_accumulators`, `extract_output`. -/
structure CombineFn (E A O : Type) where
  create_accumulator : A
  add_inputs : A → List E → A
  merge_accumulators : List A → A
  extract_output : A → O

/-- Embeds `CombineFn.apply`:
`extract_output(add_inputs(create_accumulator(), elements))`. -/
def CombineFn.apply {E A O : Type} (cf : CombineFn E A O) (elements : List E) : O :=
  cf.extract_output (cf.add_inputs cf.create_accumulator elements)

/-- The sum combiner over naturals, a concrete `CombineFn` instance. -/
def sumCombineFn : CombineFn Nat Nat Nat where
  create_accumulator := 0
  add_inputs := fun a es => es.foldl (fun acc x => acc + x) a
  merge_accumulators := fun accs => accs.foldl (fun acc x => acc + x) 0
  extract_output := id

/-! ## CombineValuesDoFn (core.py lines 852-888)

The per-key combine application: `elements[k::3]` is the Python extended
slice taking every third element starting at index `k`. -/

/-- The Python slice `l[0::3]`: every third element of `l` starting at
index 0, so `l[k::3]` is `everyThird (l.drop k)`. -/
def everyThird {α : Type} : List α → List α
  | [] => []
  | a :: rest => a :: everyThird (rest.drop 2)
termination_by l => l.length
decreasing_by simp [List.length_drop]; omega

/-- Embeds `CombineValuesDoFn.process` on an element `(key, elements)`.
With `runtime_type_check` the combiner is applied in a single operation;
otherwise the elements are split into up to three accumulators (the loop
`for k in range(3)` breaking once `len(elements) <= k`, each folding
`elements[k::3]`), which are merged and the output extracted. -/
def CombineValuesDoFn.process {E A O K : Type} (cf : CombineFn E A O)
    (runtime_type_check : Bool) (key : K) (elements : List E) : List (K × O) :=
  if runtime_type_check then
    [(key, cf.apply elements)]
  else
    let accumulators :=
      ((List.range 3).takeWhile (fun k => k < elements.length)).map
        (fun k => cf.add_inputs cf.create_accumulator (everyThird (elements.drop k)))
    let accumulator := cf.merge_accumulators accumulators
    [(key, cf.extract_output accumulator)]

/-! ## The associative/commutative reduction frame for `CombineValuesDoFn`

`m` is the binary merge on accumulators, `e` the fresh accumulator and
`inj x` the accumulator holding the single element `x`. -/

/-- The accumulator obtained by folding a list of elements into `e`. -/
def accumOf {E A : Type} (m : A → A → A) (e : A) (inj : E → A) (l : List E) : A :=
  l.foldl (fun acc x => m acc (inj x)) e

/-! ## Windowing (core.py lines 1066-1094)

The trigger, accumulation-mode and window-function types live in
`trigger.py`/`window.py`, which are not part of the embedded sources. -/

/-- Modelled from the spec: the triggers of `trigger.py`. `default` is the
`DefaultTrigger` ("fire once when the window is known to be complete");
the other constructors stand for the non-default triggers. Equality is
structural, as in `triggerfn == DefaultTrigger()`. -/
inductive TriggerFn : Type where
  | default : TriggerFn
  | afterCount (n : Nat) : TriggerFn
  | other (id : Nat) : TriggerFn
deriving DecidableEq

/-- Modelled from the spec: `AccumulationMode` with its two values. -/
inductive AccumulationMode : Type where
  | DISCARDING : AccumulationMode
  | ACCUMULATING : AccumulationMode
deriving DecidableEq

/-- Modelled from the spec: the window functions of `window.py`;
`GlobalWindows` is the trivial single-global-window assigner. Equality is
structural, as in `windowfn == window.GlobalWindows()`. -/
inductive WindowFn : Type where
  | GlobalWindows : WindowFn
  | FixedWindows (size : Int) : WindowFn
  | custom (id : Nat) : WindowFn
deriving DecidableEq

/-- The `Windowing` object with the attributes set by `Windowing.__init__`,
including the precomputed `_is_default` flag. -/
structure Windowing : Type where
  windowfn : WindowFn
  triggerfn : TriggerFn
  accumulation_mode : AccumulationMode
  is_default_flag : Bool
deriving DecidableEq

/-- The `_is_default` flag computed at the end of `Windowing.__init__`:
whether (windowfn, triggerfn, accumulation_mode) is
(GlobalWindows, default trigger, DISCARDING). -/
def Windowing.default_flag (wf : WindowFn) (tf : TriggerFn)
    (am : AccumulationMode) : Bool :=
  decide (wf = WindowFn.GlobalWindows ∧ tf = TriggerFn.default ∧
    am = AccumulationMode.DISCARDING)

/-- Embeds `Windowing.__init__`: an omitted trigger becomes the default
trigger; an omitted accumulation mode becomes DISCARDING when the trigger is
the default trigger and otherwise raises
`ValueError('accumulation_mode must be provided for non-trivial triggers')`;
the stored `_is_default` flag is `Windowing.default_flag`. -/
def Windowing.construct (windowfn : WindowFn) (triggerfn : Option TriggerFn)
    (accumulation_mode : Option AccumulationMode) : Except Err Windowing :=
  let triggerfn := triggerfn.getD TriggerFn.default
  match accumulation_mode with
  | some am =>
    .ok ⟨windowfn, triggerfn, am, Windowing.default_flag windowfn triggerfn am⟩
  | none =>
    if triggerfn = TriggerFn.default then
      .ok ⟨windowfn, triggerfn, AccumulationMode.DISCARDING,
        Windowing.default_flag windowfn triggerfn AccumulationMode.DISCARDING⟩
    else
      .error (.valueError "accumulation_mode must be provided for non-trivial triggers")

/-- Embeds `Windowing.is_default`: returns the stored `_is_default` flag. -/
def Windowing.is_default (w : Windowing) : Bool :=
  w.is_default_flag

/-! ## GroupByKey (core.py lines 908-1005) -/

/-- Modelled from the spec: a window, an interval with an `end` timestamp used
as the output timestamp of any pane it produces. -/
structure Window : Type where
  start : Int
  window_end : Int
deriving DecidableEq

/-- Modelled from the spec: a windowed value, a value paired with a timestamp
and the set of windows it belongs to. -/
structure WindowedValue (α : Type) : Type where
  value : α
  timestamp : Int
  windows : List Window
deriving DecidableEq

/-- The context handed to a `DoFn.process` call: the element with its current
timestamp and window set. -/
structure DoFnContext : Type where
  element : Py
  timestamp : Int
  windows : List Window

/-- Embeds `GroupByKey.ReifyWindows.process`: `k, v = context.element` inside
`try ... except TypeError`, so an unpacking `TypeError` is re-raised as
`TypeCheckError` while any other exception propagates; on success returns
`[(k, WindowedValue(v, context.timestamp, context.windows))]`. -/
def GroupByKey.ReifyWindows.process (context : DoFnContext) :
    Except Err (List (Py × WindowedValue Py)) :=
  match unpack2 context.element with
  | .ok (k, v) => .ok [(k, ⟨v, context.timestamp, context.windows⟩)]
  | .error (.typeError _) =>
    .error (.typeCheckError
      "Input to GroupByKey must be a PCollection with elements compatible with KV[A, B]")
  | .error e => .error e

/-- Modelled from the spec: the panes produced by the trigger driver of
`trigger.py` (absent from the embedded sources) are parameters — `elemPanes`
is what `driver.process_elements(vs, state)` yields and `timerPanes` holds, in
order, what each `driver.process_timer(...)` call of the timer-draining loop
yields. This function embeds the wrapping done by
`GroupByKey.GroupAlsoByWindow.process` for key `k`: each driver pane
`(out_window, values)` is emitted as
`WindowedValue((k, values), out_window.end, [out_window])`. -/
def GroupByKey.GroupAlsoByWindow.process {K V : Type} (k : K)
    (elemPanes : List (Window × List V))
    (timerPanes : List (List (Window × List V))) :
    List (WindowedValue (K × List V)) :=
  elemPanes.map (fun p => ⟨(k, p.2), p.1.window_end, [p.1]⟩)
    ++ (timerPanes.map
        (fun round => round.map
          (fun p => (⟨(k, p.2), p.1.window_end, [p.1]⟩ : WindowedValue (K × List V))))).flatten

/-! ## Partition (core.py lines 1027-1063) -/

/-- A value directed to a side output with the given tag
(`pvalue.SideOutputValue(tag, value)`). -/
structure SideOutputValue (α : Type) : Type where
  tag : String
  value : α
deriving DecidableEq

/-- Embeds `Partition.ApplyPartitionFnFn.process`: `partition_for` picks a
partition index; an index outside `[0, n)` raises `ValueError`, otherwise the
element is yielded into the side output tagged with the decimal string of the
index. -/
def Partition.ApplyPartitionFnFn.process {α : Type} (partition_for : α → Nat → Int)
    (n : Nat) (element : α) : Except Err (List (SideOutputValue α)) :=
  let partition := partition_for element n
  if 0 ≤ partition ∧ partition < n then
    .ok [⟨toString partition, element⟩]
  else
    .error (.valueError "PartitionFn specified out-of-bounds partition index")

/-! ## Create (core.py lines 1194-1213) -/

/-- Embeds the value handling of `Create.__init__`: a string is refused with
`TypeError`; a dict is replaced by its `(key, value)` item pairs; the result
of `tuple(value)` becomes the transform's elements, `tuple` raising
`TypeError` when the value is not iterable. -/
def Create.init (value : Py) : Except Err (List Py) :=
  if value.isStr then
    .error (.typeError "PTransform Create: Refusing to treat string as an iterable.")
  else
    let value' := match value with
      | Py.dict items => Py.list (items.map (fun kv => Py.list [kv.1, kv.2]))
      | v => v
    match pyIter value' with
    | some l => .ok l
    | none => .error (.typeError "argument is not iterable")

/-- Classifies a result as a raised `TypeCheckError`. -/
def isTypeCheckError {β : Type} : Except Err β → Bool
  | .error (.typeCheckError _) => true
  | _ => false

/-- Classifies a result as a raised `TypeError`. -/
def isTypeError {β : Type} : Except Err β → Bool
  | .error (.typeError _) => true
  | _ => false

/-! ## Helper lemmas -/

/-- The three round-robin slices `l[0::3]`, `l[1::3]`, `l[2::3]` together are a
permutation of `l`. -/
theorem everyThird_append_perm {α : Type} :
    ∀ l : List α,
      l.Perm (everyThird l ++ everyThird (l.drop 1) ++ everyThird (l.drop 2))
  | [] => by simp [everyThird]
  | [a] => by simp [everyThird]
  | [a, b] => by simp [everyThird]
  | a :: b :: c :: rest => by
    have ih := everyThird_append_perm rest
    have e0 : everyThird (a :: b :: c :: rest) = a :: everyThird rest := by
      simp [everyThird]
    have e1 : everyThird (b :: c :: rest) = b :: everyThird (rest.drop 1) := by
      simp [everyThird]
    have e2 : everyThird (c :: rest) = c :: everyThird (rest.drop 2) := by
      simp [everyThird]
    simp only [List.drop_succ_cons, List.drop_zero, e0, e1, e2,
      List.cons_append, List.append_assoc]
    set X := everyThird rest
    set Y := everyThird (rest.drop 1)
    set Z := everyThird (rest.drop 2)
    rw [List.append_assoc] at ih
    refine (((ih.cons c).cons b).cons a).trans ?_
    have hW : (X ++ (b :: (Y ++ (c :: Z)))).Perm (b :: (X ++ (Y ++ (c :: Z)))) :=
      List.perm_middle
    have hc : (X ++ (Y ++ (c :: Z))).Perm (c :: (X ++ (Y ++ Z))) :=
      (List.Perm.append_left X List.perm_middle).trans List.perm_middle
    exact List.Perm.cons a (hW.trans (hc.cons b)).symm

/-- Folding from an arbitrary accumulator `a` merges `a` with the fold from
`e`, given associativity and a left identity. -/
theorem foldl_accum_from {E A : Type} (m : A → A → A) (e : A) (inj : E → A)
    (hassoc : ∀ a b c, m (m a b) c = m a (m b c))
    (hcomm : ∀ a b, m a b = m b a)
    (hid : ∀ a, m e a = a) :
    ∀ (l : List E) (a : A),
      l.foldl (fun acc x => m acc (inj x)) a = m a (accumOf m e inj l)
  | [], a => by
    simp [accumOf, hcomm a e, hid]
  | x :: l, a => by
    have ih := foldl_accum_from m e inj hassoc hcomm hid l
    simp only [accumOf, List.foldl_cons] at *
    rw [ih (m a (inj x)), ih (m e (inj x)), hid, hassoc]

/-- `accumOf` is a monoid morphism from list concatenation to `m`. -/
theorem accumOf_append {E A : Type} (m : A → A → A) (e : A) (inj : E → A)
    (hassoc : ∀ a b c, m (m a b) c = m a (m b c))
    (hcomm : ∀ a b, m a b = m b a)
    (hid : ∀ a, m e a = a)
    (l₁ l₂ : List E) :
    accumOf m e inj (l₁ ++ l₂) = m (accumOf m e inj l₁) (accumOf m e inj l₂) := by
  simp only [accumOf, List.foldl_append]
  exact foldl_accum_from m e inj hassoc hcomm hid l₂ _

/-- `accumOf` is invariant under permutation of the elements. -/
theorem accumOf_perm {E A : Type} (m : A → A → A) (e : A) (inj : E → A)
    (hassoc : ∀ a b c, m (m a b) c = m a (m b c))
    (hcomm : ∀ a b, m a b = m b a)
    {l₁ l₂ : List E} (p : l₁.Perm l₂) :
    accumOf m e inj l₁ = accumOf m e inj l₂ := by
  refine p.foldl_eq' ?_ e
  intro x _ y _ z
  rw [hassoc, hcomm (inj x) (inj y), ← hassoc]

/-- Merging the up-to-three round-robin accumulators of
`CombineValuesDoFn.process` yields the single-shot accumulator of the whole
element list. -/
theorem merge_three_slices {E A : Type} (m : A → A → A) (e : A) (inj : E → A)
    (hassoc : ∀ a b c, m (m a b) c = m a (m b c))
    (hcomm : ∀ a b, m a b = m b a)
    (hid : ∀ a, m e a = a)
    (elements : List E) :
    (((List.range 3).takeWhile (fun k => k < elements.length)).map
        (fun k => accumOf m e inj (everyThird (elements.drop k)))).foldl m e
      = accumOf m e inj elements := by
  have hmid : ∀ a : A, m a e = a := fun a => (hcomm a e).trans (hid a)
  have key := accumOf_perm m e inj hassoc hcomm (everyThird_append_perm elements)
  rw [accumOf_append m e inj hassoc hcomm hid,
      accumOf_append m e inj hassoc hcomm hid] at key
  match elements with
  | [] => simp [List.range_succ, accumOf, everyThird]
  | [a] =>
    have : everyThird [a] = [a] := by simp [everyThird]
    simp [List.range_succ, List.takeWhile, this, accumOf, hid, everyThird]
  | [a, b] =>
    have h0 : everyThird [a, b] = [a] := by simp [everyThird]
    have h1 : everyThird [b] = [b] := by simp [everyThird]
    simp only [List.drop_succ_cons, List.drop_zero, h0, h1, everyThird] at key
    have hnil : accumOf m e inj ([] : List E) = e := rfl
    rw [hnil, hmid] at key
    simp [List.range_succ, List.takeWhile, h0, h1, everyThird, hid, key]
  | a :: b :: c :: rest =>
    have hlen : ∀ k, k ∈ List.range 3 → decide (k < (a :: b :: c :: rest).length) = true := by
      intro k hk
      simp only [List.mem_range] at hk
      simp only [List.length_cons, decide_eq_true_iff]
      omega
    rw [List.takeWhile_eq_self_iff.mpr hlen]
    simp only [List.range_succ, List.range_zero, List.nil_append, List.map_cons,
      List.map_nil, List.foldl_cons, List.foldl_nil, List.cons_append,
      List.map_append, List.foldl_append, List.drop_zero]
    rw [key, hid]

/-! ## Claim theorems -/

/-- C4: For every CombineFn and every element sequence, `CombineFn.apply`
equals `extract_output(add_inputs(create_accumulator(), elements))`, the
reference single-shot composition of the three operations with no other
processing. -/
theorem combineFn_apply_is_single_shot {E A O : Type} (cf : CombineFn E A O)
    (elements : List E) :
    cf.apply elements =
      cf.extract_output (cf.add_inputs cf.create_accumulator elements) :=
  rfl

/-- C9: Calling `CallableWrapperCombineFn.add_input` with no additional
side-input arguments always raises a `TypeError` (the body forwards
`[element]` as the `accumulator` positional argument of `add_inputs` and
supplies no `elements` argument), so a single element is never folded into an
existing accumulator through `add_input`. -/
theorem callableWrapper_add_input_type_error (fn : List Py → Py)
    (accumulator element : Py) :
    CallableWrapperCombineFn.add_input fn accumulator element =
      .error (.typeError "add_inputs() missing required positional argument: elements") :=
  rfl

/-- C3: The `CallableWrapperCombineFn` operations wrapping a reducer `fn`:
`create_accumulator` is the `_EMPTY` sentinel; `add_inputs` on `_EMPTY` is
`fn(elements)` and on a non-`_EMPTY` accumulator is `fn` of the accumulator
prepended to the elements; `merge_accumulators` is `fn` of the accumulators;
`extract_output` on `_EMPTY` is `fn(())` (so `extract_output` of
`create_accumulator` is the identity value) and on a non-`_EMPTY` accumulator
returns it unchanged. -/
theorem callableWrapper_combineFn_algebra (fn : List Py → Py) :
    CallableWrapperCombineFn.create_accumulator = Py.EMPTY ∧
    (∀ es, CallableWrapperCombineFn.add_inputs fn Py.EMPTY es = fn es) ∧
    (∀ a es, a.isEMPTY = false →
      CallableWrapperCombineFn.add_inputs fn a es = fn (a :: es)) ∧
    (∀ accs, CallableWrapperCombineFn.merge_accumulators fn accs = fn accs) ∧
    CallableWrapperCombineFn.extract_output fn Py.EMPTY = fn [] ∧
    (∀ a, a.isEMPTY = false → CallableWrapperCombineFn.extract_output fn a = a) ∧
    CallableWrapperCombineFn.extract_output fn
      CallableWrapperCombineFn.create_accumulator = fn [] := by
  refine ⟨rfl, fun es => rfl, fun a es h => ?_, fun accs => rfl, rfl,
    fun a h => ?_, rfl⟩
  · simp [CallableWrapperCombineFn.add_inputs, h]
  · simp [CallableWrapperCombineFn.extract_output, h]

/-- Witness for C3 at the concrete reducer `sumPy`. -/
theorem callableWrapper_combineFn_algebra_witness :
    CallableWrapperCombineFn.add_inputs sumPy (Py.int 5) [Py.int 2, Py.int 3] =
      sumPy (Py.int 5 :: [Py.int 2, Py.int 3]) ∧
    CallableWrapperCombineFn.extract_output sumPy (Py.int 7) = Py.int 7 :=
  ⟨(callableWrapper_combineFn_algebra sumPy).2.2.1 (Py.int 5) [Py.int 2, Py.int 3] rfl,
   (callableWrapper_combineFn_algebra sumPy).2.2.2.2.2.1 (Py.int 7) rfl⟩

/-- C1: For every key, finite list of elements, and CombineFn whose operations
form an associative, commutative reduction (`merge_accumulators` the fold of a
binary merge from the fresh accumulator, so tolerating 0, 1 or N accumulators,
and `add_inputs` the element-wise fold), `CombineValuesDoFn.process` without
runtime type-checking — splitting the list by round-robin index modulo 3 into
up to three sub-batches, folding each into a fresh accumulator, merging and
extracting — returns `[(key, r)]` with `r` the reference single-shot result
`apply(elements)`, the same value the runtime_type_check branch returns. -/
theorem combineValues_process_refines_apply {E A O K : Type} (cf : CombineFn E A O)
    (m : A → A → A) (inj : E → A)
    (hmerge : ∀ accs, cf.merge_accumulators accs = accs.foldl m cf.create_accumulator)
    (hadd : ∀ a es, cf.add_inputs a es = es.foldl (fun acc x => m acc (inj x)) a)
    (hassoc : ∀ a b c, m (m a b) c = m a (m b c))
    (hcomm : ∀ a b, m a b = m b a)
    (hid : ∀ a, m cf.create_accumulator a = a)
    (key : K) (elements : List E) :
    CombineValuesDoFn.process cf false key elements = [(key, cf.apply elements)] ∧
    CombineValuesDoFn.process cf true key elements = [(key, cf.apply elements)] := by
  refine ⟨?_, rfl⟩
  have hbody : CombineValuesDoFn.process cf false key elements
      = [(key, cf.extract_output (cf.merge_accumulators
          (((List.range 3).takeWhile (fun k => k < elements.length)).map
            (fun k => cf.add_inputs cf.create_accumulator
              (everyThird (elements.drop k))))))] := rfl
  have hmain := merge_three_slices m cf.create_accumulator inj hassoc hcomm hid elements
  simp only [accumOf] at hmain
  rw [hbody, hmerge]
  simp only [hadd, CombineFn.apply]
  rw [hmain]

/-- Witness for C1 at the concrete sum combiner. -/
theorem combineValues_process_refines_apply_witness :
    CombineValuesDoFn.process sumCombineFn false 0 [1, 2, 3, 4, 5, 6, 7] =
      [(0, 28)] :=
  ((combineValues_process_refines_apply sumCombineFn (fun a b => a + b) id
      (fun _ => rfl) (fun _ _ => rfl) (fun a b c => Nat.add_assoc a b c)
      (fun a b => Nat.add_comm a b) (fun a => Nat.zero_add a)
      0 [1, 2, 3, 4, 5, 6, 7]).1).trans (by decide)

/-- C2: Constructing a `Windowing` with both the trigger and the accumulation
mode omitted succeeds and yields the default trigger with DISCARDING
accumulation mode; constructing with a given non-default trigger and the
accumulation mode omitted fails with a `ValueError` at construction time. -/
theorem windowing_construct_defaults :
    (∀ wf, ∃ w : Windowing, Windowing.construct wf none none = .ok w ∧
      w.windowfn = wf ∧ w.triggerfn = TriggerFn.default ∧
      w.accumulation_mode = AccumulationMode.DISCARDING) ∧
    (∀ wf t, t ≠ TriggerFn.default →
      Windowing.construct wf (some t) none =
        .error (.valueError "accumulation_mode must be provided for non-trivial triggers")) := by
  constructor
  · intro wf
    exact ⟨_, rfl, rfl, rfl, rfl⟩
  · intro wf t ht
    simp [Windowing.construct, ht]

/-- Witness for C2: a non-default trigger with no accumulation mode is
rejected. -/
theorem windowing_construct_defaults_witness :
    Windowing.construct WindowFn.GlobalWindows (some (TriggerFn.other 0)) none =
      .error (.valueError "accumulation_mode must be provided for non-trivial triggers") :=
  windowing_construct_defaults.2 WindowFn.GlobalWindows (TriggerFn.other 0) (by decide)

/-- C5: For every successfully constructed `Windowing`, `is_default()` returns
true if and only if the window function is the global-windows assigner, the
trigger is the default trigger and the accumulation mode is DISCARDING. -/
theorem windowing_is_default_iff (wf : WindowFn) (t : Option TriggerFn)
    (am : Option AccumulationMode) (w : Windowing)
    (h : Windowing.construct wf t am = .ok w) :
    w.is_default = true ↔
      (w.windowfn = WindowFn.GlobalWindows ∧ w.triggerfn = TriggerFn.default ∧
        w.accumulation_mode = AccumulationMode.DISCARDING) := by
  have hflag : w.is_default_flag =
      Windowing.default_flag w.windowfn w.triggerfn w.accumulation_mode := by
    cases am with
    | some a =>
      have hc : Windowing.construct wf t (some a) =
          .ok ⟨wf, t.getD TriggerFn.default, a,
            Windowing.default_flag wf (t.getD TriggerFn.default) a⟩ := rfl
      rw [hc] at h
      injection h with h'
      subst h'
      rfl
    | none =>
      by_cases ht : t.getD TriggerFn.default = TriggerFn.default
      · have hc : Windowing.construct wf t none =
            .ok ⟨wf, t.getD TriggerFn.default, AccumulationMode.DISCARDING,
              Windowing.default_flag wf (t.getD TriggerFn.default)
                AccumulationMode.DISCARDING⟩ := by
          unfold Windowing.construct
          simp only [if_pos ht]
        rw [hc] at h
        injection h with h'
        subst h'
        rfl
      · have hc : Windowing.construct wf t none =
            .error (.valueError "accumulation_mode must be provided for non-trivial triggers") := by
          unfold Windowing.construct
          simp only [if_neg ht]
        rw [hc] at h
        exact Except.noConfusion h
  simp [Windowing.is_default, hflag, Windowing.default_flag]

/-- Witness for C5 at the all-default `Windowing`. -/
theorem windowing_is_default_iff_witness :
    (Windowing.mk WindowFn.GlobalWindows TriggerFn.default
        AccumulationMode.DISCARDING true).is_default = true ↔
      ((Windowing.mk WindowFn.GlobalWindows TriggerFn.default
          AccumulationMode.DISCARDING true).windowfn = WindowFn.GlobalWindows ∧
        (Windowing.mk WindowFn.GlobalWindows TriggerFn.default
          AccumulationMode.DISCARDING true).triggerfn = TriggerFn.default ∧
        (Windowing.mk WindowFn.GlobalWindows TriggerFn.default
          AccumulationMode.DISCARDING true).accumulation_mode =
            AccumulationMode.DISCARDING) :=
  windowing_is_default_iff WindowFn.GlobalWindows none none _ rfl

/-- C6 counterexample: the three-component element `(1, 2, 3)` is not a
two-component key/value pair, yet `ReifyWindows.process` does not fail with a
`TypeCheckError`: tuple unpacking of a wrong-length iterable raises
`ValueError`, which the `except TypeError` clause does not catch. -/
theorem reifyWindows_non_pair_not_typecheck :
    isPair2 (Py.list [Py.int 1, Py.int 2, Py.int 3]) = false ∧
    isTypeCheckError (GroupByKey.ReifyWindows.process
      ⟨Py.list [Py.int 1, Py.int 2, Py.int 3], 0, []⟩) = false ∧
    GroupByKey.ReifyWindows.process
        ⟨Py.list [Py.int 1, Py.int 2, Py.int 3], 0, []⟩ =
      .error (.valueError "too many values to unpack") :=
  ⟨rfl, rfl, rfl⟩

/-- C6 (amended): if the element is not iterable, `ReifyWindows.process` fails
with a `TypeCheckError`; if it is an iterable of length other than two, the
unpacking `ValueError` propagates uncaught; if it unpacks as a pair `(k, v)`
carrying timestamp `t` and window set `ws`, the result is the single-element
list `[(k, WindowedValue(v, t, ws))]` with value, timestamp and windows
unchanged. -/
theorem reifyWindows_process_spec :
    (∀ ctx : DoFnContext, pyIter ctx.element = none →
      GroupByKey.ReifyWindows.process ctx =
        .error (.typeCheckError
          "Input to GroupByKey must be a PCollection with elements compatible with KV[A, B]")) ∧
    (∀ (ctx : DoFnContext) (l : List Py), pyIter ctx.element = some l →
      l.length ≠ 2 →
      GroupByKey.ReifyWindows.process ctx =
        .error (.valueError (if l.length < 2 then "need more than values to unpack"
          else "too many values to unpack"))) ∧
    (∀ (ctx : DoFnContext) (k v : Py), pyIter ctx.element = some [k, v] →
      GroupByKey.ReifyWindows.process ctx =
        .ok [(k, ⟨v, ctx.timestamp, ctx.windows⟩)]) := by
  refine ⟨?_, ?_, ?_⟩
  · intro ctx h
    simp [GroupByKey.ReifyWindows.process, unpack2, h]
  · intro ctx l h hlen
    rcases l with _ | ⟨a, _ | ⟨b, _ | ⟨c, t⟩⟩⟩
    · simp [GroupByKey.ReifyWindows.process, unpack2, h]
    · simp [GroupByKey.ReifyWindows.process, unpack2, h]
    · exact absurd rfl hlen
    · have h3 : ¬ (t.length + 1 + 1 + 1 < 2) := by omega
      simp [GroupByKey.ReifyWindows.process, unpack2, h, h3]
  · intro ctx k v h
    simp [GroupByKey.ReifyWindows.process, unpack2, h]

/-- Witness for C6 (amended) at a concrete pair element. -/
theorem reifyWindows_process_spec_witness :
    GroupByKey.ReifyWindows.process
        ⟨Py.list [Py.int 1, Py.int 2], 3, [⟨0, 9⟩]⟩ =
      .ok [(Py.int 1, ⟨Py.int 2, 3, [⟨0, 9⟩]⟩)] :=
  reifyWindows_process_spec.2.2 ⟨Py.list [Py.int 1, Py.int 2], 3, [⟨0, 9⟩]⟩
    (Py.int 1) (Py.int 2) rfl

/-- C7: Every pane yielded by `GroupAlsoByWindow.process` for key `k` — from
processing buffered elements and from processing matured timers alike — is a
`WindowedValue` whose value is `(k, values)`, whose timestamp is the end of
the pane's window and whose window set is exactly `[window]`. -/
theorem groupAlsoByWindow_pane_shape {K V : Type} (k : K)
    (elemPanes : List (Window × List V))
    (timerPanes : List (List (Window × List V)))
    (p : WindowedValue (K × List V))
    (hp : p ∈ GroupByKey.GroupAlsoByWindow.process k elemPanes timerPanes) :
    ∃ w vs, p = ⟨(k, vs), w.window_end, [w]⟩ := by
  simp only [GroupByKey.GroupAlsoByWindow.process, List.mem_append, List.mem_map,
    List.mem_flatten] at hp
  rcases hp with ⟨q, _, rfl⟩ | ⟨round, ⟨r0, _, rfl⟩, hq⟩
  · exact ⟨q.1, q.2, rfl⟩
  · rcases List.mem_map.mp hq with ⟨q, _, rfl⟩
    exact ⟨q.1, q.2, rfl⟩

/-- Witness for C7 at a concrete timer-produced pane. -/
theorem groupAlsoByWindow_pane_shape_witness :
    ∃ w vs, (⟨(1, [3]), 9, [⟨5, 9⟩]⟩ : WindowedValue (Nat × List Nat)) =
      ⟨(1, vs), w.window_end, [w]⟩ :=
  groupAlsoByWindow_pane_shape 1 [(⟨0, 5⟩, [1, 2])] [[(⟨5, 9⟩, [3])]] _ (by decide)

/-- C8: `Partition.ApplyPartitionFnFn.process` raises a `ValueError` if and
only if the index returned by `partition_for` lies outside `[0, n)`; when the
index is in range it yields exactly one `SideOutputValue` tagged with the
decimal string of the index and carrying the element unchanged. -/
theorem partition_process_bounds {α : Type} (partition_for : α → Nat → Int)
    (n : Nat) (element : α) :
    (Partition.ApplyPartitionFnFn.process partition_for n element =
        .error (.valueError "PartitionFn specified out-of-bounds partition index")
      ↔ ¬(0 ≤ partition_for element n ∧ partition_for element n < (n : Int))) ∧
    (0 ≤ partition_for element n ∧ partition_for element n < (n : Int) →
      Partition.ApplyPartitionFnFn.process partition_for n element =
        .ok [⟨toString (partition_for element n), element⟩]) := by
  unfold Partition.ApplyPartitionFnFn.process
  by_cases h : 0 ≤ partition_for element n ∧ partition_for element n < (n : Int)
  · rw [if_pos h]
    exact ⟨⟨fun he => Except.noConfusion he, fun hn => absurd h hn⟩, fun _ => rfl⟩
  · rw [if_neg h]
    exact ⟨iff_of_true rfl h, fun hh => absurd hh h⟩

/-- Witness for C8 at an in-range partition index. -/
theorem partition_process_bounds_witness :
    Partition.ApplyPartitionFnFn.process (fun e _ => e) 3 (1 : Int) =
      .ok [⟨"1", 1⟩] :=
  (partition_process_bounds (fun e _ => e) 3 1).2 (by decide)

/-- C10 counterexample: `Create.__init__` also raises a `TypeError` when the
supplied value is not a string but not iterable either (here the integer 5,
where `tuple(value)` raises), so "TypeError if and only if the value is a
string" fails. -/
theorem create_init_non_iterable_type_error :
    Py.isStr (Py.int 5) = false ∧
    Create.init (Py.int 5) = .error (.typeError "argument is not iterable") :=
  ⟨rfl, rfl⟩

/-- C10 (amended): `Create.__init__` raises a `TypeError` if and only if the
supplied value is a string or is not iterable; a dict contributes its
`(key, value)` item pairs as the elements; an accepted list contributes its
items as the elements, fixed at construction time. -/
theorem create_init_spec :
    (∀ v : Py, isTypeError (Create.init v) = true ↔
      (v.isStr = true ∨ pyIter v = none)) ∧
    (∀ items, Create.init (Py.dict items) =
      .ok (items.map (fun kv => Py.list [kv.1, kv.2]))) ∧
    (∀ l, Create.init (Py.list l) = .ok l) := by
  refine ⟨?_, fun items => rfl, fun l => rfl⟩
  intro v
  cases v <;> simp [Create.init, pyIter, Py.isStr, isTypeError]
